import Mathlib

/-!
# Verification of the jobly-backend SQL helper layer

Shallow embedding of the SQL-fragment builders and thin model methods of the
jobly Express backend:

* `sqlForPartialUpdate`      — src/helpers/sql.js, lines 23–36
* `sqlForCompanyFilter`      — src/models/job.js, `Company._sqlForCompanyFilter`, lines 85–109
* `filterWhereBuilder`       — src/models/job.js, `Job._filterWhereBuilder`, lines 255–278
* `Job.create`               — src/models/job.js, lines 209–238
* `Job.update`               — src/models/job.js, lines 402–422

JavaScript runtime values that flow through these functions are modelled by
`JSVal`; the numeric coercion `Number(x)` is modelled by `jsToNumber`, with
`none` standing for `NaN` (every comparison against `NaN` is `false` in JS,
which `jsGt`/`jsGe`/`jsLt` reproduce by returning `false` when either side
is `none`).
-/

set_option maxHeartbeats 1000000

/-- A JavaScript value as it can appear in an update payload or filter
criteria object: `undefined`, `null`, a (finite) number, a string, or a
boolean.  A destructured-but-absent key is `undef`. -/
inductive JSVal where
  | undef
  | null
  | num  (q : ℚ)
  | str  (s : String)
  | bool (b : Bool)
deriving DecidableEq

/-- JavaScript string conversion (template-literal interpolation) for the
values that can reach it here.  Strings pass through unchanged; integers
print without a decimal point. -/
def jsValToString : JSVal → String
  | .undef => "undefined"
  | .null => "null"
  | .num q => if q.den = 1 then toString q.num else toString q
  | .str s => s
  | .bool b => if b then "true" else "false"

/-- Value of a run of decimal digits, most significant first. -/
def digitsVal (cs : List Char) : ℕ :=
  cs.foldl (fun n c => 10 * n + (c.toNat - 48)) 0

/-- Strip leading and trailing whitespace (JS `Number` ignores it). -/
def jsTrim (s : String) : List Char :=
  ((s.data.dropWhile Char.isWhitespace).reverse.dropWhile Char.isWhitespace).reverse

/-- `Number(s)` for a string `s`, restricted to the plain decimal forms the
repository can feed it (optional sign, digits, optional fraction); `none`
models `NaN`.  The whitespace-trimmed empty string converts to `0`, as in JS. -/
def jsStringToNumber (s : String) : Option ℚ :=
  let t := jsTrim s
  if t = [] then some 0
  else
    let (sign, cs) : ℚ × List Char :=
      match t with
      | '-' :: rest => (-1, rest)
      | '+' :: rest => (1, rest)
      | rest => (1, rest)
    let intPart := cs.takeWhile (fun c => c ≠ '.')
    match cs.dropWhile (fun c => c ≠ '.') with
    | [] =>
        if intPart ≠ [] ∧ intPart.all Char.isDigit then
          some (sign * (digitsVal intPart : ℚ))
        else none
    | _ :: frac =>
        if (intPart ≠ [] ∨ frac ≠ []) ∧ intPart.all Char.isDigit ∧
            frac.all Char.isDigit then
          some (sign * ((digitsVal intPart : ℚ) +
            (digitsVal frac : ℚ) / (10 ^ frac.length)))
        else none

/-- JavaScript `Number(x)`; `none` models `NaN`. -/
def jsToNumber : JSVal → Option ℚ
  | .undef => none
  | .null => some 0
  | .num q => some q
  | .str s => jsStringToNumber s
  | .bool b => some (if b then 1 else 0)

/-- JS `>` on coerced numbers: any comparison involving `NaN` is `false`. -/
def jsGt : Option ℚ → Option ℚ → Bool
  | some a, some b => decide (b < a)
  | _, _ => false

/-- JS `>=` on coerced numbers: any comparison involving `NaN` is `false`. -/
def jsGe : Option ℚ → Option ℚ → Bool
  | some a, some b => decide (b ≤ a)
  | _, _ => false

/-- JS `<` on coerced numbers: any comparison involving `NaN` is `false`. -/
def jsLt : Option ℚ → Option ℚ → Bool
  | some a, some b => decide (a < b)
  | _, _ => false

/-- The error taxonomy of the backend (src/expressError.js, consumed by the
helpers): `badRequest` is `BadRequestError` (its constructor's default
message is "Bad Request"); `notFound` is `NotFoundError`; `validation`
models the route-level JSON-schema rejection (a 400-class error);
`sqlError` models an unclassified database failure (a 500). -/
inductive JoblyError where
  | badRequest (msg : String)
  | notFound (msg : String)
  | validation (msg : String)
  | sqlError (msg : String)
deriving DecidableEq

instance exceptDecEq {ε α : Type} [DecidableEq ε] [DecidableEq α] :
    DecidableEq (Except ε α)
  | .error e, .error f => decidable_of_iff (e = f) (by simp)
  | .error _, .ok _ => isFalse (fun h => Except.noConfusion h)
  | .ok _, .error _ => isFalse (fun h => Except.noConfusion h)
  | .ok a, .ok b => decidable_of_iff (a = b) (by simp)

/-- An update payload / filter object: keys with values, in the object's
iteration order. -/
abbrev Payload := List (String × JSVal)

/-- A `jsToSql` mapping of logical field names to physical column names. -/
abbrev FieldMap := List (String × String)

/-- JS property read `m[key]`: `none` models `undefined` (key absent). -/
def jsLookup : FieldMap → String → Option String
  | [], _ => none
  | (k, v) :: rest, key => if k = key then some v else jsLookup rest key

/-- `jsToSql[colName] || colName` (src/helpers/sql.js line 29): `||` falls
back to `colName` when the looked-up value is falsy, i.e. `undefined`
(absent key) or the empty string. -/
def physicalName (jsToSql : FieldMap) (colName : String) : String :=
  match jsLookup jsToSql colName with
  | some s => if s = "" then colName else s
  | none => colName

/-- Remove every entry for `key` from a field map (an object that simply
never contained the key). -/
def eraseKey : FieldMap → String → FieldMap
  | [], _ => []
  | p :: rest, key => if p.1 = key then eraseKey rest key else p :: eraseKey rest key

/-- Result of `sqlForPartialUpdate`: the SET-fragment string and the
positional parameter list. -/
structure SetFragment where
  setCols : String
  values : List JSVal
deriving DecidableEq

/-- src/helpers/sql.js lines 23–36:

```js
function sqlForPartialUpdate(dataToUpdate, jsToSql) {
  const keys = Object.keys(dataToUpdate);
  if (keys.length === 0) throw new BadRequestError("No data");
  const cols = keys.map((colName, idx) =>
    `"CHR34 jsToSql[colName] || colName CHR34"=$ idx+1`,
  );
  return { setCols: cols.join(", "), values: Object.values(dataToUpdate) };
}
```
-/
def sqlForPartialUpdate (dataToUpdate : Payload) (jsToSql : FieldMap) :
    Except JoblyError SetFragment :=
  let keys := dataToUpdate.map Prod.fst
  if keys.length = 0 then .error (.badRequest "No data")
  else
    let cols := keys.enum.map (fun p =>
      "\"" ++ physicalName jsToSql p.2 ++ "\"=$" ++ toString (p.1 + 1))
    .ok { setCols := String.intercalate ", " cols,
          values := dataToUpdate.map Prod.snd }

example :
    sqlForPartialUpdate
      [("name", .str "newName"), ("numEmployees", .num 0)]
      [("numEmployees", "num_employees")] =
    .ok { setCols := "\"name\"=$1, \"num_employees\"=$2",
          values := [.str "newName", .num 0] } := by decide

/-- Result of a filter builder: the WHERE-fragment string (called
`whereClause` in `_sqlForCompanyFilter` and `where` in
`_filterWhereBuilder`) and the positional parameter list (`values` resp.
`vals`). -/
structure WhereFrag where
  whereClause : String
  values : List JSVal
deriving DecidableEq

/-- src/models/job.js lines 89–102, the body of `_sqlForCompanyFilter`
after the range check: the sequential pushes onto `values` and
`whereConditions`.  Each condition is numbered with `values.length` taken
AFTER the matching value was pushed.  Returns `(values, whereConditions)`. -/
def companyFilterParts (minEmployees maxEmployees name : JSVal) :
    List JSVal × List String :=
  let acc0 : List JSVal × List String := ([], [])
  let acc1 :=
    if name ≠ JSVal.undef then
      let vs := acc0.1 ++ [JSVal.str ("%" ++ jsValToString name ++ "%")]
      (vs, acc0.2 ++ ["name ILIKE $" ++ toString vs.length])
    else acc0
  let acc2 :=
    if minEmployees ≠ JSVal.undef then
      let vs := acc1.1 ++ [minEmployees]
      (vs, acc1.2 ++ ["num_employees>=$" ++ toString vs.length])
    else acc1
  let acc3 :=
    if maxEmployees ≠ JSVal.undef then
      let vs := acc2.1 ++ [maxEmployees]
      (vs, acc2.2 ++ ["num_employees<=$" ++ toString vs.length])
    else acc2
  acc3

/-- src/models/job.js lines 85–109, `Company._sqlForCompanyFilter`
(destructured arguments `{ minEmployees, maxEmployees, name }`):

```js
if (Number(minEmployees) > Number(maxEmployees)) {
  throw new BadRequestError("minEmployees must be greater than maxEmployees");
}
... sequential pushes (companyFilterParts) ...
const whereClause = whereConditions.length === 0 ?
  "" : "WHERE " + whereConditions.join(" AND ");
return { whereClause, values };
```
-/
def sqlForCompanyFilter (minEmployees maxEmployees name : JSVal) :
    Except JoblyError WhereFrag :=
  if jsGt (jsToNumber minEmployees) (jsToNumber maxEmployees) then
    .error (.badRequest "minEmployees must be greater than maxEmployees")
  else
    let parts := companyFilterParts minEmployees maxEmployees name
    .ok { whereClause :=
            if parts.2.length = 0 then ""
            else "WHERE " ++ String.intercalate " AND " parts.2,
          values := parts.1 }

/-- src/models/job.js lines 256–271, the body of `Job._filterWhereBuilder`:
sequential pushes onto `vals` and `whereParts`.  `hasEquity` contributes
the fixed condition `equity > 0` when it is strictly (`===`) the boolean
`true`, pushing no value.  Returns `(vals, whereParts)`. -/
def filterWhereParts (minSalary hasEquity title : JSVal) :
    List JSVal × List String :=
  let acc0 : List JSVal × List String := ([], [])
  let acc1 :=
    if minSalary ≠ JSVal.undef then
      let vs := acc0.1 ++ [minSalary]
      (vs, acc0.2 ++ ["salary >= $" ++ toString vs.length])
    else acc0
  let acc2 :=
    if hasEquity = JSVal.bool true then (acc1.1, acc1.2 ++ ["equity > 0"])
    else acc1
  let acc3 :=
    if title ≠ JSVal.undef then
      let vs := acc2.1 ++ [JSVal.str ("%" ++ jsValToString title ++ "%")]
      (vs, acc2.2 ++ ["title ILIKE $" ++ toString vs.length])
    else acc2
  acc3

/-- src/models/job.js lines 255–278, `Job._filterWhereBuilder`
(destructured arguments `{ minSalary, hasEquity, title }`):

```js
... sequential pushes (filterWhereParts) ...
const where = (whereParts.length > 0) ?
  "WHERE " + whereParts.join(" AND ") : "";
return { where, vals };
```
-/
def filterWhereBuilder (minSalary hasEquity title : JSVal) : WhereFrag :=
  let parts := filterWhereParts minSalary hasEquity title
  { whereClause :=
      if parts.2.length > 0 then "WHERE " ++ String.intercalate " AND " parts.2
      else "",
    values := parts.1 }

example :
    filterWhereBuilder (.num 10000) (.bool true) (.str "Engineer") =
    { whereClause := "WHERE salary >= $1 AND equity > 0 AND title ILIKE $2",
      values := [.num 10000, .str "%Engineer%"] } := by decide

example :
    sqlForCompanyFilter .undef .undef .undef = .ok { whereClause := "", values := [] } := by
  decide

/-- A row of the `jobs` table. -/
structure JobRow where
  id : ℕ
  title : JSVal
  salary : JSVal
  equity : JSVal
  companyHandle : JSVal
deriving DecidableEq

/-- The slice of database state the job model touches: the existing company
handles (the only column `Job.create`'s existence check consults), the job
rows, and the next value of the `jobs.id` serial sequence. -/
structure DB where
  companies : List String
  jobs : List JobRow
  nextJobId : ℕ
deriving DecidableEq

/-- src/models/job.js lines 209–238, `Job.create` (destructured arguments
`{ title, salary, equity, companyHandle }`):

```js
if (Number(equity) >= 1) throw new BadRequestError();
if (Number(salary) < 0) throw new BadRequestError();
const existsCheck = await db.query(SELECT handle FROM companies WHERE handle = $1, [companyHandle]);
if (existsCheck.rows.length === 0)
  throw new BadRequestError(`Company does not exist: companyHandle`);
INSERT INTO jobs(title, salary, equity, company_handle) ... RETURNING ...
```

The state is threaded explicitly: an error leaves the database unchanged. -/
def Job.create (db : DB) (title salary equity companyHandle : JSVal) :
    DB × Except JoblyError JobRow :=
  if jsGe (jsToNumber equity) (some 1) then
    (db, .error (.badRequest "Bad Request"))
  else if jsLt (jsToNumber salary) (some 0) then
    (db, .error (.badRequest "Bad Request"))
  else if (db.companies.filter
      (fun h => decide (h = jsValToString companyHandle))).length = 0 then
    (db, .error (.badRequest ("Company does not exist: " ++
      jsValToString companyHandle)))
  else
    let job : JobRow :=
      { id := db.nextJobId, title := title, salary := salary,
        equity := equity, companyHandle := companyHandle }
    ({ db with jobs := db.jobs ++ [job], nextJobId := db.nextJobId + 1 },
     .ok job)

/-- The columns of the `jobs` table (schema `jobs(id PK, title, salary,
equity, company_handle FK)`); a SET clause naming any other column makes
PostgreSQL reject the UPDATE. -/
def jobColumns : List String := ["id", "title", "salary", "equity", "company_handle"]

/-- Effect of executing `SET "k1"=v1, ...` on a job row, for the columns of
the `jobs` table. -/
def applyJobSet (row : JobRow) (data : Payload) : JobRow :=
  data.foldl (fun r kv =>
    if kv.1 = "id" then { r with id := r.id }
    else if kv.1 = "title" then { r with title := kv.2 }
    else if kv.1 = "salary" then { r with salary := kv.2 }
    else if kv.1 = "equity" then { r with equity := kv.2 }
    else if kv.1 = "company_handle" then { r with companyHandle := kv.2 }
    else r) row

/-- src/models/job.js lines 402–422, `Job.update`:

```js
const { setCols, values } = sqlForPartialUpdate(data, {});
const querySql = `UPDATE jobs SET setCols WHERE id = ... RETURNING ...`;
const result = await db.query(querySql, [...values, id]);
if (!job) throw new NotFoundError(`No job: id`);
```

With the empty `jsToSql` map, `setCols` names the payload keys verbatim as
columns; a key that is not a `jobs` column makes the UPDATE fail in the
database (modelled as `sqlError`).  An error leaves the database unchanged. -/
def Job.update (db : DB) (id : ℕ) (data : Payload) :
    DB × Except JoblyError JobRow :=
  match sqlForPartialUpdate data [] with
  | .error e => (db, .error e)
  | .ok _frag =>
    if data.all (fun kv => jobColumns.contains kv.1) then
      match db.jobs.find? (fun j => j.id == id) with
      | none => (db, .error (.notFound ("No job: " ++ toString id)))
      | some j =>
          let j2 := applyJobSet j data
          ({ db with jobs := db.jobs.map (fun r => if r.id == id then j2 else r) },
           .ok j2)
    else (db, .error (.sqlError "column does not exist"))

/-- Modelled from the spec: the PATCH route's JSON-schema validation for
job updates is not under src/ (only its company-side test, the PATCH
handle-change test of src/unnamed/part_001, is).  Spec §4.3: update "must
reject any attempt to change the immutable identifier field"; the model
doc (src/models/job.js line 395) limits update data to
`{ title, salary, equity }`. -/
def jobUpdateAllowedKeys : List String := ["title", "salary", "equity"]

/-- Modelled from the spec: the PATCH /jobs/:id route handler (not under
src/), which validates the request body against the update schema before
calling `Job.update`, rejecting any payload with a key outside the allowed
update fields with a 400-class validation error. -/
def patchJob (db : DB) (id : ℕ) (data : Payload) :
    DB × Except JoblyError JobRow :=
  if data.all (fun kv => jobUpdateAllowedKeys.contains kv.1) then
    Job.update db id data
  else (db, .error (.validation "invalid update fields"))

/-! ## Helper lemmas -/

lemma jsGt_none_left (b : Option ℚ) : jsGt none b = false := by
  cases b <;> rfl

lemma jsGt_none_right (a : Option ℚ) : jsGt a none = false := by
  cases a <;> rfl

/-! ## Claims -/

/-- C2: for every field-name map, calling `sqlForPartialUpdate` with an
empty update payload fails with the no-update-data `BadRequestError`
("No data") and produces no SET fragment. -/
theorem sqlForPartialUpdate_empty_payload (jsToSql : FieldMap) :
    sqlForPartialUpdate [] jsToSql = .error (.badRequest "No data") := rfl

/-- C3: whenever both employee bounds are supplied and the lower bound
exceeds the upper bound, the company filter builder fails with the
range-inverted `BadRequestError` and produces no WHERE fragment or
parameter list. -/
theorem sqlForCompanyFilter_range_inverted (mn mx : ℚ) (name : JSVal)
    (h : mx < mn) :
    sqlForCompanyFilter (.num mn) (.num mx) name =
      .error (.badRequest "minEmployees must be greater than maxEmployees") := by
  have hgt : jsGt (jsToNumber (JSVal.num mn)) (jsToNumber (JSVal.num mx)) = true := by
    simp [jsToNumber, jsGt, h]
  simp [sqlForCompanyFilter, hgt]

theorem sqlForCompanyFilter_range_inverted_witness :
    (3 : ℚ) < 5 ∧
    sqlForCompanyFilter (.num 5) (.num 3) .undef =
      .error (.badRequest "minEmployees must be greater than maxEmployees") :=
  ⟨by norm_num, sqlForCompanyFilter_range_inverted 5 3 .undef (by norm_num)⟩

/-- C5: the company filter builder applied to
`{name: "Company 1", minEmployees: 2}` returns
`whereClause = "WHERE name ILIKE $1 AND num_employees>=$2"` and
`values = ["%Company 1%", 2]`: the substring value is wrapped in `%...%`
and the name condition precedes the lower-bound condition. -/
theorem sqlForCompanyFilter_name_min_scenario :
    sqlForCompanyFilter (.num 2) .undef (.str "Company 1") =
      .ok { whereClause := "WHERE name ILIKE $1 AND num_employees>=$2",
            values := [.str "%Company 1%", .num 2] } := by decide

/-- C6: in the job filter builder, `hasEquity = true` contributes exactly
the fixed condition `"equity > 0"` and pushes no value; any other
`hasEquity` contributes nothing; and an `undefined` criterion key
contributes no clause and no placeholder (the closed form below has no
entry at all, in particular no NULL-valued one, for an absent key). -/
theorem filterWhereBuilder_hasEquity_semantics (ms he ti : JSVal) :
    filterWhereParts ms he ti =
      ((if ms = JSVal.undef then [] else [ms]) ++
         (if ti = JSVal.undef then []
          else [JSVal.str ("%" ++ jsValToString ti ++ "%")]),
       (if ms = JSVal.undef then [] else ["salary >= $1"]) ++
         (if he = JSVal.bool true then ["equity > 0"] else []) ++
         (if ti = JSVal.undef then []
          else ["title ILIKE $" ++
            toString ((if ms = JSVal.undef then 0 else 1) + 1)])) ∧
    (filterWhereBuilder ms he ti).values = (filterWhereParts ms he ti).1 := by
  constructor
  · by_cases h1 : ms = JSVal.undef <;> by_cases h2 : he = JSVal.bool true <;>
      by_cases h3 : ti = JSVal.undef <;>
        simp [filterWhereParts, h1, h2, h3] <;> rfl
  · rfl

/-- C10: the company filter builder's inverted-range check compares
`Number(minEmployees) > Number(maxEmployees)`; whenever either bound is
absent (`undefined`) or converts to `NaN`, the comparison is `false`, so
the builder never raises the range error and proceeds to emit its clauses,
pushing the unconverted original bound values into the parameter list. -/
theorem sqlForCompanyFilter_nan_no_range_error (mn mx nm : JSVal)
    (h : mn = JSVal.undef ∨ mx = JSVal.undef ∨
         jsToNumber mn = none ∨ jsToNumber mx = none) :
    sqlForCompanyFilter mn mx nm =
      .ok { whereClause :=
              if (companyFilterParts mn mx nm).2.length = 0 then ""
              else "WHERE " ++
                String.intercalate " AND " (companyFilterParts mn mx nm).2,
            values := (companyFilterParts mn mx nm).1 } ∧
    (mn ≠ JSVal.undef → mn ∈ (companyFilterParts mn mx nm).1) ∧
    (mx ≠ JSVal.undef → mx ∈ (companyFilterParts mn mx nm).1) := by
  have hgt : jsGt (jsToNumber mn) (jsToNumber mx) = false := by
    rcases h with h | h | h | h
    · rw [h]; exact jsGt_none_left _
    · rw [h]; exact jsGt_none_right _
    · rw [h]; exact jsGt_none_left _
    · rw [h]; exact jsGt_none_right _
  refine ⟨by simp [sqlForCompanyFilter, hgt], ?_, ?_⟩
  · intro hmn
    by_cases h1 : nm = JSVal.undef <;> by_cases h2 : mx = JSVal.undef <;>
      simp [companyFilterParts, h1, h2, hmn]
  · intro hmx
    by_cases h1 : nm = JSVal.undef <;> by_cases h2 : mn = JSVal.undef <;>
      simp [companyFilterParts, h1, h2, hmx]

/-- C7: for numeric salary and equity, `Job.create` rejects with a
`BadRequestError` (a client error, before inserting) any job whose equity
is not strictly less than 1 (so `equity = 1` fails and `equity = 0.99`
passes this check), any job whose salary is negative, and any job whose
`companyHandle` references no existing company; otherwise it inserts the
row and returns the new job. -/
theorem job_create_validation (db : DB) (t : JSVal) (s e : ℚ) (ch : String) :
    Job.create db t (.num s) (.num e) (.str ch) =
      if 1 ≤ e then (db, .error (.badRequest "Bad Request"))
      else if s < 0 then (db, .error (.badRequest "Bad Request"))
      else if ch ∈ db.companies then
        ({ companies := db.companies,
           jobs := db.jobs ++
             [{ id := db.nextJobId, title := t, salary := .num s,
                equity := .num e, companyHandle := .str ch }],
           nextJobId := db.nextJobId + 1 },
         .ok { id := db.nextJobId, title := t, salary := .num s,
               equity := .num e, companyHandle := .str ch })
      else (db, .error (.badRequest ("Company does not exist: " ++ ch))) := by
  have hmem : ((db.companies.filter
      (fun x => decide (x = jsValToString (JSVal.str ch)))).length = 0) ↔
      ch ∉ db.companies := by
    rw [List.length_eq_zero, List.filter_eq_nil_iff]
    simp only [jsValToString, decide_eq_true_eq]
    constructor
    · intro hall hmem
      exact hall ch hmem rfl
    · intro hnm a ha he
      subst he
      exact hnm ha
  by_cases he : 1 ≤ e
  · simp [Job.create, jsGe, jsToNumber, he]
  · by_cases hs : s < 0
    · simp [Job.create, jsGe, jsLt, jsToNumber, he, hs]
    · by_cases hc : ch ∈ db.companies
      · rw [Job.create]
        simp only [hmem]
        simp [jsGe, jsLt, jsToNumber, jsValToString, he, hs, hc]
      · rw [Job.create]
        simp only [hmem]
        simp [jsGe, jsLt, jsToNumber, jsValToString, he, hs, hc]

/-- C8: a PATCH of a job whose payload contains the immutable identifier
field `handle` is rejected by the update path with a 400-class validation
error distinct from the empty-payload "No data" error, and the database is
left unchanged. -/
theorem patchJob_rejects_identifier (db : DB) (id : ℕ) (data : Payload)
    (v : JSVal) (h : ("handle", v) ∈ data) :
    patchJob db id data = (db, .error (.validation "invalid update fields")) ∧
    JoblyError.validation "invalid update fields" ≠
      JoblyError.badRequest "No data" := by
  refine ⟨?_, by decide⟩
  have hall : data.all (fun kv => jobUpdateAllowedKeys.contains kv.1) = false := by
    rw [Bool.eq_false_iff]
    intro hcontra
    rw [List.all_eq_true] at hcontra
    have := hcontra _ h
    simp [jobUpdateAllowedKeys] at this
  unfold patchJob
  simp only [hall]
  rfl

theorem patchJob_rejects_identifier_witness :
    (("handle", JSVal.str "new") ∈
      ([("handle", JSVal.str "new")] : Payload)) ∧
    (patchJob ⟨["c1"], [⟨1, .str "j1", .num 100, .num 0, .str "c1"⟩], 2⟩ 1
        [("handle", JSVal.str "new")] =
      (⟨["c1"], [⟨1, .str "j1", .num 100, .num 0, .str "c1"⟩], 2⟩,
       .error (.validation "invalid update fields")) ∧
     JoblyError.validation "invalid update fields" ≠
       JoblyError.badRequest "No data") :=
  ⟨by decide,
   patchJob_rejects_identifier
     ⟨["c1"], [⟨1, .str "j1", .num 100, .num 0, .str "c1"⟩], 2⟩ 1
     [("handle", JSVal.str "new")] (JSVal.str "new") (by decide)⟩

lemma jsLookup_eraseKey (m : FieldMap) (k key : String) :
    jsLookup (eraseKey m k) key = if key = k then none else jsLookup m key := by
  induction m with
  | nil => simp [eraseKey, jsLookup]
  | cons p rest ih =>
      obtain ⟨pk, pv⟩ := p
      rw [eraseKey]
      by_cases hp : pk = k
      · rw [if_pos hp, ih]
        by_cases hkey : key = k
        · rw [if_pos hkey, if_pos hkey]
        · rw [if_neg hkey, if_neg hkey, jsLookup]
          have hpk : ¬(pk = key) := fun hh => hkey (hh.symm.trans hp)
          rw [if_neg hpk]
      · rw [if_neg hp, jsLookup]
        by_cases hpk : pk = key
        · have hkey : ¬(key = k) := fun hh => hp (hpk.trans hh)
          rw [if_pos hpk, if_neg hkey, jsLookup, if_pos hpk]
        · rw [if_neg hpk, ih]
          by_cases hkey : key = k
          · rw [if_pos hkey, if_pos hkey]
          · rw [if_neg hkey, if_neg hkey, jsLookup, if_neg hpk]

lemma physicalName_eraseKey (m : FieldMap) (k : String)
    (hk : jsLookup m k = some "") (key : String) :
    physicalName (eraseKey m k) key = physicalName m key := by
  by_cases h : key = k
  · subst h
    rw [physicalName, physicalName, jsLookup_eraseKey, if_pos rfl, hk]
    simp
  · rw [physicalName, physicalName, jsLookup_eraseKey, if_neg h]

/-- C9: in `sqlForPartialUpdate`, a payload key whose mapped physical name
is falsy (the empty string) is emitted under its logical key name, exactly
as if the key were absent from the map: the presence test is truthiness of
the mapped value, not key membership. -/
theorem sqlForPartialUpdate_falsy_mapping (data : Payload) (js : FieldMap)
    (k : String) (h : jsLookup js k = some "") :
    physicalName js k = k ∧
    sqlForPartialUpdate data js = sqlForPartialUpdate data (eraseKey js k) := by
  constructor
  · simp [physicalName, h]
  · unfold sqlForPartialUpdate
    have hfun :
        (fun p : ℕ × String =>
          "\"" ++ physicalName (eraseKey js k) p.2 ++ "\"=$" ++ toString (p.1 + 1)) =
        (fun p : ℕ × String =>
          "\"" ++ physicalName js p.2 ++ "\"=$" ++ toString (p.1 + 1)) := by
      funext p
      rw [physicalName_eraseKey js k h]
    rw [hfun]

theorem sqlForPartialUpdate_falsy_mapping_witness :
    jsLookup [("f", "")] "f" = some "" ∧
    (physicalName [("f", "")] "f" = "f" ∧
     sqlForPartialUpdate [("f", JSVal.num 1)] [("f", "")] =
       sqlForPartialUpdate [("f", JSVal.num 1)] (eraseKey [("f", "")] "f")) :=
  ⟨rfl, sqlForPartialUpdate_falsy_mapping _ _ _ rfl⟩

/-- C1 counterexample: with payload `{f: 1}` and map `{f: ""}`, the key
`f` IS present in the map (mapped to the empty string), yet the emitted
assignment is `"f"=$1`, not the claim's `"<M[f]>"=$1` = `""=$1`: the
claim's present-in-M rule fails for falsy mapped values. -/
theorem sqlForPartialUpdate_mapped_name_counterexample :
    jsLookup [("f", "")] "f" = some "" ∧
    sqlForPartialUpdate [("f", JSVal.num 2)] [("f", "")] =
      .ok { setCols := "\"f\"=$1", values := [JSVal.num 2] } ∧
    "\"f\"=$1" ≠ "\"\"=$1" := ⟨rfl, by decide, by decide⟩

/-- C1 (amended): for every non-empty update payload and field-name map,
`sqlForPartialUpdate` returns `setCols` made of exactly `len(P)`
comma-separated assignments, the `i`-th (1-based, in the payload's
iteration order) being `"<physicalName>"=$<i>` where `physicalName` is
`M[key]` when the key is present in `M` with a truthy (non-empty) value
and the key itself otherwise, and returns `values` equal to the payload's
values in the same order. -/
theorem sqlForPartialUpdate_shape (data : Payload) (js : FieldMap)
    (h : data ≠ []) :
    ∃ cols : List String,
      sqlForPartialUpdate data js =
        .ok { setCols := String.intercalate ", " cols,
              values := data.map Prod.snd } ∧
      cols.length = data.length ∧
      ∀ i k v, data.get? i = some (k, v) →
        cols.get? i =
          some ("\"" ++ physicalName js k ++ "\"=$" ++ toString (i + 1)) := by
  refine ⟨(data.map Prod.fst).enum.map (fun p =>
    "\"" ++ physicalName js p.2 ++ "\"=$" ++ toString (p.1 + 1)), ?_, ?_, ?_⟩
  · unfold sqlForPartialUpdate
    have hne : ¬((data.map Prod.fst).length = 0) := by
      simp only [List.length_map, List.length_eq_zero]
      exact h
    rw [if_neg hne]
  · simp [List.enum_length]
  · intro i k v hi
    rw [List.get?_map, List.get?_enum, List.get?_map, hi]
    rfl

theorem sqlForPartialUpdate_shape_witness :
    (([("name", JSVal.str "newName"), ("numEmployees", JSVal.num 0)] :
        Payload) ≠ []) ∧
    (∃ cols : List String,
      sqlForPartialUpdate
          [("name", JSVal.str "newName"), ("numEmployees", JSVal.num 0)]
          [("numEmployees", "num_employees")] =
        .ok { setCols := String.intercalate ", " cols,
              values := ([("name", JSVal.str "newName"),
                          ("numEmployees", JSVal.num 0)] : Payload).map
                Prod.snd } ∧
      cols.length =
        ([("name", JSVal.str "newName"),
          ("numEmployees", JSVal.num 0)] : Payload).length ∧
      ∀ i k v,
        ([("name", JSVal.str "newName"),
          ("numEmployees", JSVal.num 0)] : Payload).get? i = some (k, v) →
        cols.get? i =
          some ("\"" ++ physicalName [("numEmployees", "num_employees")] k ++
            "\"=$" ++ toString (i + 1))) :=
  ⟨by decide, sqlForPartialUpdate_shape _ _ (by decide)⟩

/-- C4: for every filter criteria input (on the company side, provided the
range check does not fire): when zero conditions apply the result is
`whereClause = ""` (never a bare `"WHERE"`) with an empty parameter list;
otherwise the clause is `"WHERE "` followed by the condition strings of the
builder's fixed field order joined with `" AND "`. -/
theorem filterBuilders_whereClause_shape (mn mx nm ms he ti : JSVal)
    (h : jsGt (jsToNumber mn) (jsToNumber mx) = false) :
    ((nm = JSVal.undef ∧ mn = JSVal.undef ∧ mx = JSVal.undef) →
       sqlForCompanyFilter mn mx nm = .ok { whereClause := "", values := [] }) ∧
    (¬(nm = JSVal.undef ∧ mn = JSVal.undef ∧ mx = JSVal.undef) →
       (companyFilterParts mn mx nm).2 ≠ [] ∧
       sqlForCompanyFilter mn mx nm =
         .ok { whereClause := "WHERE " ++
                 String.intercalate " AND " (companyFilterParts mn mx nm).2,
               values := (companyFilterParts mn mx nm).1 }) ∧
    ((ms = JSVal.undef ∧ he ≠ JSVal.bool true ∧ ti = JSVal.undef) →
       filterWhereBuilder ms he ti = { whereClause := "", values := [] }) ∧
    (¬(ms = JSVal.undef ∧ he ≠ JSVal.bool true ∧ ti = JSVal.undef) →
       (filterWhereParts ms he ti).2 ≠ [] ∧
       (filterWhereBuilder ms he ti).whereClause =
         "WHERE " ++ String.intercalate " AND " (filterWhereParts ms he ti).2) := by
  refine ⟨?_, ?_, ?_, ?_⟩
  · rintro ⟨h1, h2, h3⟩
    subst h1 h2 h3
    simp [sqlForCompanyFilter, companyFilterParts, h]
  · intro hne
    have hparts : (companyFilterParts mn mx nm).2 ≠ [] := by
      by_cases h1 : nm = JSVal.undef <;> by_cases h2 : mn = JSVal.undef <;>
        by_cases h3 : mx = JSVal.undef <;>
          simp [companyFilterParts, h1, h2, h3] at hne ⊢
    refine ⟨hparts, ?_⟩
    have hlen : ¬((companyFilterParts mn mx nm).2.length = 0) := by
      simpa [List.length_eq_zero] using hparts
    simp [sqlForCompanyFilter, h, hlen]
  · rintro ⟨h1, h2, h3⟩
    simp [filterWhereBuilder, filterWhereParts, h1, h2, h3]
  · intro hne
    have hparts : (filterWhereParts ms he ti).2 ≠ [] := by
      by_cases h1 : ms = JSVal.undef <;> by_cases h2 : he = JSVal.bool true <;>
        by_cases h3 : ti = JSVal.undef <;>
          simp [filterWhereParts, h1, h2, h3] at hne ⊢
    have hlen : 0 < (filterWhereParts ms he ti).2.length :=
      List.length_pos.mpr hparts
    refine ⟨hparts, ?_⟩
    simp [filterWhereBuilder, hlen]

theorem filterBuilders_whereClause_shape_witness :
    jsGt (jsToNumber (JSVal.num 1)) (jsToNumber JSVal.undef) = false ∧
    (((JSVal.undef = JSVal.undef ∧ (JSVal.num 1) = JSVal.undef ∧
        JSVal.undef = JSVal.undef) →
       sqlForCompanyFilter (.num 1) .undef .undef =
         .ok { whereClause := "", values := [] }) ∧
     (¬(JSVal.undef = JSVal.undef ∧ (JSVal.num 1) = JSVal.undef ∧
        JSVal.undef = JSVal.undef) →
       (companyFilterParts (.num 1) .undef .undef).2 ≠ [] ∧
       sqlForCompanyFilter (.num 1) .undef .undef =
         .ok { whereClause := "WHERE " ++ String.intercalate " AND "
                 (companyFilterParts (.num 1) .undef .undef).2,
               values := (companyFilterParts (.num 1) .undef .undef).1 }) ∧
     ((JSVal.undef = JSVal.undef ∧ (JSVal.bool true) ≠ JSVal.bool true ∧
        JSVal.undef = JSVal.undef) →
       filterWhereBuilder .undef (.bool true) .undef =
         { whereClause := "", values := [] }) ∧
     (¬(JSVal.undef = JSVal.undef ∧ (JSVal.bool true) ≠ JSVal.bool true ∧
        JSVal.undef = JSVal.undef) →
       (filterWhereParts .undef (.bool true) .undef).2 ≠ [] ∧
       (filterWhereBuilder .undef (.bool true) .undef).whereClause =
         "WHERE " ++ String.intercalate " AND "
           (filterWhereParts .undef (.bool true) .undef).2)) :=
  ⟨by decide, filterBuilders_whereClause_shape _ _ _ _ _ _ (by decide)⟩

theorem sqlForCompanyFilter_nan_no_range_error_witness :
    ((JSVal.str "Ten") = JSVal.undef ∨ (JSVal.num 3) = JSVal.undef ∨
     jsToNumber (JSVal.str "Ten") = none ∨ jsToNumber (JSVal.num 3) = none) ∧
    (sqlForCompanyFilter (.str "Ten") (.num 3) .undef =
      .ok { whereClause :=
              if (companyFilterParts (.str "Ten") (.num 3) .undef).2.length = 0
              then ""
              else "WHERE " ++ String.intercalate " AND "
                (companyFilterParts (.str "Ten") (.num 3) .undef).2,
            values := (companyFilterParts (.str "Ten") (.num 3) .undef).1 } ∧
     ((JSVal.str "Ten") ≠ JSVal.undef →
        (JSVal.str "Ten") ∈ (companyFilterParts (.str "Ten") (.num 3) .undef).1) ∧
     ((JSVal.num 3) ≠ JSVal.undef →
        (JSVal.num 3) ∈ (companyFilterParts (.str "Ten") (.num 3) .undef).1)) :=
  ⟨by decide, sqlForCompanyFilter_nan_no_range_error _ _ _ (by decide)⟩
